import Mathlib

/-!  Verification of `ppnet/alignment_analysis.py` (`run_analysis`).

The Python module is embedded shallowly: the pure path/metadata parsing, the
prototype-class alignment sanity check, the activation-offset adjustment and
the two ranking/selection passes become Lean functions; Python exceptions
become an explicit error type and fallible steps return `Except`.  Machine
floats are modelled by `ℚ` (and by `ℝ` where a transcendental function is
involved); numpy/torch tensors are modelled by (nested) lists.
-/

namespace AlignmentAnalysis

/-- The Python exception kinds that `run_analysis` can raise. -/
inductive PyError where
  | assertionError
  | valueError
  | attributeError
  | nameError
  deriving DecidableEq, Repr

/-- Whether an `Except` computation ended in an exception. -/
def isError {α : Type} : Except PyError α → Bool
  | Except.error _ => true
  | Except.ok _ => false

/-- Equality of `Except` values is decidable when it is on both sides. -/
def exceptDecEq {ε α : Type} [DecidableEq ε] [DecidableEq α] :
    (x y : Except ε α) → Decidable (x = y)
  | Except.ok a, Except.ok b =>
    if h : a = b then isTrue (by rw [h]) else isFalse (fun hh => h (Except.ok.inj hh))
  | Except.ok _, Except.error _ => isFalse (fun hh => Except.noConfusion hh)
  | Except.error _, Except.ok _ => isFalse (fun hh => Except.noConfusion hh)
  | Except.error e, Except.error f =>
    if h : e = f then isTrue (by rw [h]) else isFalse (fun hh => h (Except.error.inj hh))

instance {ε α : Type} [DecidableEq ε] [DecidableEq α] : DecidableEq (Except ε α) :=
  exceptDecEq

/-! ### Path/metadata parser (lines 20-25)

`re.split(r'\\|/', path)` splits a path at every forward or backward slash,
keeping empty segments. -/

/-- Split a character list at every `/` or `\` (the `re.split` of line 21/24). -/
def splitChars : List Char → List (List Char)
  | [] => [[]]
  | c :: cs =>
    if c = '/' ∨ c = '\\' then [] :: splitChars cs
    else
      match splitChars cs with
      | s :: rest => (c :: s) :: rest
      | [] => [[c]]

/-- Python `l[-n:]`: the last `n` elements (the whole list when it is shorter). -/
def lastN {α : Type} (n : Nat) (l : List α) : List α := l.drop (l.length - n)

/-- Python tuple unpacking `a, b = l` for a 2-slice: `ValueError` unless `l`
has exactly two elements (line 21). -/
def unpack2 : List (List Char) → Except PyError (List Char × List Char)
  | [a, b] => Except.ok (a, b)
  | _ => Except.error PyError.valueError

/-- Python tuple unpacking `a, b, c, d = l` for a 4-slice (line 24). -/
def unpack4 : List (List Char) →
    Except PyError (List Char × List Char × List Char × List Char)
  | [a, b, c, d] => Except.ok (a, b, c, d)
  | _ => Except.error PyError.valueError

/-- The first maximal digit run of a character list (`re.search(r'\d+', s)`,
line 25): `none` when the string holds no digit. -/
def firstDigitRun : List Char → Option (List Char)
  | [] => none
  | c :: cs =>
    if c.isDigit then some (c :: cs.takeWhile Char.isDigit)
    else firstDigitRun cs

/-- Whether a character is not a decimal digit. -/
def nonDigit (c : Char) : Bool := !c.isDigit

/-- Numeric value of a decimal digit character. -/
def digitVal (c : Char) : Nat := c.toNat - 48

/-- Python `int` on a most-significant-first string of decimal digits. -/
def digitsToNat (ds : List Char) : Nat :=
  ds.foldl (fun acc c => 10 * acc + digitVal c) 0

/-- Lines 25: `int(re.search(r'\d+', model_name).group(0))`.  When no digit
run exists, `re.search` returns `None` and `.group(0)` raises
`AttributeError`. -/
def extractEpochC (name : List Char) : Except PyError Nat :=
  match firstDigitRun name with
  | none => Except.error PyError.attributeError
  | some ds => Except.ok (digitsToNat ds)

/-- The separator-delimited segments of a path string. -/
def pySegments (p : String) : List (List Char) := splitChars p.toList

/-- Line 21: `img_class, img_name = re.split(r'\\|/', img_path)[-2:]`. -/
def parseImgPath (p : String) : Except PyError (List Char × List Char) :=
  unpack2 (lastN 2 (pySegments p))

/-- Lines 24-25: unpack the last four path segments of the checkpoint path
and extract the epoch number from the checkpoint filename; any exception
propagates. -/
def parseModelPath (p : String) :
    Except PyError (List Char × List Char × List Char × Nat) :=
  match unpack4 (lastN 4 (pySegments p)) with
  | Except.error e => Except.error e
  | Except.ok (arch, expRun, _chk, name) =>
    match extractEpochC name with
    | Except.error e => Except.error e
    | Except.ok epoch => Except.ok (arch, expRun, name, epoch)

/-- Lines 20-25 in program order: the image path is parsed first, then the
checkpoint path; any exception propagates. -/
def parsePaths (img model : String) :
    Except PyError ((List Char × List Char) × (List Char × List Char × List Char × Nat)) :=
  match parseImgPath img with
  | Except.error e => Except.error e
  | Except.ok im =>
    match parseModelPath model with
    | Except.error e => Except.error e
    | Except.ok md => Except.ok (im, md)

/-- The checkpoint filename: the last separator-delimited segment of the
checkpoint path (`model_name` of line 24). -/
def checkpointFilename (model : String) : List Char :=
  ((pySegments model).getLast?).getD []

/-! ### Prototype-class alignment sanity check (lines 48-60) -/

/-- Inner loop of `argmaxIdx`: `best` is the index of the first maximum seen
so far, `bestVal` its value, `i` the index of the next element. -/
def argmaxAux (best : Nat) (bestVal : ℚ) (i : Nat) : List ℚ → Nat
  | [] => best
  | x :: xs =>
    if bestVal < x then argmaxAux i x (i + 1) xs
    else argmaxAux best bestVal (i + 1) xs

/-- Index of the first maximal element (`torch.argmax` returns the index of
the first maximal value). -/
def argmaxIdx : List ℚ → Nat
  | [] => 0
  | x :: xs => argmaxAux 0 x 1 xs

/-- Column `p` of the final-layer weight matrix (rows are classes). -/
def column (weight : List (List ℚ)) (p : Nat) : List ℚ :=
  weight.map (fun row => row.getD p 0)

/-- Line 55: `torch.argmax(ppnet.last_layer.weight, dim=0)`, one entry per
prototype. -/
def prototypeMaxConnection (weight : List (List ℚ)) (numPrototypes : Nat) : List Nat :=
  (List.range numPrototypes).map (fun p => argmaxIdx (column weight p))

/-- Last entry of a metadata row (`row[-1]`). -/
def lastEntry (r : List ℤ) : ℤ := r.getD (r.length - 1) 0

/-- Line 51: `prototype_info[:, -1]`, the assigned class of every metadata
record. -/
def identityCol (info : List (List ℤ)) : List ℤ := info.map lastEntry

/-- Whether the two components of a pair are equal. -/
def pairEq (pr : ℤ × ℤ) : Bool := decide (pr.1 = pr.2)

/-- Line 57: `np.sum(a == b)` for 1-D integer arrays, with numpy broadcasting:
equal lengths compare elementwise, a length-1 array broadcasts against the
other, and any other length combination raises a broadcast `ValueError`
(numpy ≥ 1.25 semantics). -/
def npEqCountSum (a b : List ℤ) : Except PyError Nat :=
  if a.length = b.length then Except.ok ((a.zip b).countP pairEq)
  else if a.length = 1 then Except.ok (b.countP (fun x => decide (x = a.getD 0 0)))
  else if b.length = 1 then Except.ok (a.countP (fun x => decide (x = b.getD 0 0)))
  else Except.error PyError.valueError

/-- The two possible log messages of the alignment check (lines 58, 60). -/
inductive AlignMsg where
  | allAligned
  | warning
  deriving DecidableEq, Repr

/-- Embedding of the integer cast applied to the `torch.argmax` result so it
can be compared with the integer metadata column. -/
def natToInt (n : Nat) : ℤ := n

/-- Lines 48-60: the sanity-check section.  `imgDirExists` is
`os.path.exists(load_img_dir)`; its failure is the `assert` of line 49.
`info` is the `bb.npy` array, `weight` the final-layer weight matrix.  The
equality count of line 57 is compared with `num_prototypes` to choose the
log message; an exception from the comparison propagates. -/
def sanityCheck (imgDirExists : Bool) (info : List (List ℤ))
    (weight : List (List ℚ)) (numPrototypes : Nat) : Except PyError AlignMsg :=
  if imgDirExists then
    match npEqCountSum ((prototypeMaxConnection weight numPrototypes).map natToInt)
        (identityCol info) with
    | Except.error e => Except.error e
    | Except.ok cnt =>
      Except.ok (if cnt = numPrototypes then AlignMsg.allAligned else AlignMsg.warning)
  else Except.error PyError.assertionError

/-! ### Ranking and selection (lines 96-100, 148-160)

`torch.sort` is ascending; the spec fixes its tie behaviour to be stable
(equal values keep their original order), which is exactly a sort by the
lexicographic key (value, index). -/

/-- Stable ascending comparison on indices into the activation vector `xs`. -/
def sortLE (xs : List ℚ) (i j : Nat) : Prop :=
  xs.getD i 0 < xs.getD j 0 ∨ (xs.getD i 0 = xs.getD j 0 ∧ i ≤ j)

instance (xs : List ℚ) : DecidableRel (sortLE xs) := fun _ _ =>
  inferInstanceAs (Decidable (_ ∨ _))

instance (xs : List ℚ) : IsTotal Nat (sortLE xs) :=
  ⟨fun i j => by
    unfold sortLE
    rcases lt_trichotomy (xs.getD i 0) (xs.getD j 0) with h | h | h
    · exact Or.inl (Or.inl h)
    · rcases Nat.le_total i j with hij | hij
      · exact Or.inl (Or.inr ⟨h, hij⟩)
      · exact Or.inr (Or.inr ⟨h.symm, hij⟩)
    · exact Or.inr (Or.inl h)⟩

instance (xs : List ℚ) : IsTrans Nat (sortLE xs) :=
  ⟨fun i j k hij hjk => by
    unfold sortLE at hij hjk ⊢
    rcases hij with h1 | ⟨e1, le1⟩ <;> rcases hjk with h2 | ⟨e2, le2⟩
    · exact Or.inl (h1.trans h2)
    · exact Or.inl (by rw [← e2]; exact h1)
    · exact Or.inl (by rw [e1]; exact h2)
    · exact Or.inr ⟨e1.trans e2, le1.trans le2⟩⟩

/-- Line 96: the index permutation produced by the stable ascending sort of
the activation vector (`sorted_indices_act`). -/
def argsortAsc (xs : List ℚ) : List Nat :=
  List.insertionSort (sortLE xs) (List.range xs.length)

/-- Lines 97-100: the loop reads `sorted_indices_act[-i]` for `i = 1..n`,
i.e. the last `n` sorted indices, from the end. -/
def topNSelect (xs : List ℚ) (n : Nat) : List Nat :=
  ((argsortAsc xs).reverse).take n

/-- The descending order that the selection of lines 97-100 actually
produces: larger activation first; equal activations in reverse original
order. -/
def descTie (xs : List ℚ) (i j : Nat) : Prop :=
  xs.getD j 0 < xs.getD i 0 ∨ (xs.getD i 0 = xs.getD j 0 ∧ j < i)

/-- Stable descending comparison, following the spec's words: "sorted
strictly by descending activation value (ties broken by stable original
order)". -/
def stableDescLE (xs : List ℚ) (i j : Nat) : Prop :=
  xs.getD j 0 < xs.getD i 0 ∨ (xs.getD i 0 = xs.getD j 0 ∧ i ≤ j)

instance (xs : List ℚ) : DecidableRel (stableDescLE xs) := fun _ _ =>
  inferInstanceAs (Decidable (_ ∨ _))

/-- Top-N selection as the spec's sentence describes it: stable descending
sort, then the first `n` indices. -/
def specTopN (xs : List ℚ) (n : Nat) : List Nat :=
  (List.insertionSort (stableDescLE xs) (List.range xs.length)).take n

/-- Activation of prototype `p` (`prototype_activations[idx][p]`). -/
def actAt (acts : List ℚ) (p : Nat) : ℚ := acts.getD p 0

/-- Non-strict descending order on prototype indices by activation. -/
def actGE (acts : List ℚ) (p q : Nat) : Prop := actAt acts q ≤ actAt acts p

/-- Whether prototype `p` has a nonzero entry for class `c` in the one-hot
`prototype_class_identity` matrix. -/
def hasClassEntry (identity : List (List ℚ)) (c : Nat) (p : Nat) : Bool :=
  decide ((identity.getD p []).getD c 0 ≠ 0)

/-- Line 152: `np.nonzero(prototype_class_identity[:, c])[0]`, the ascending
list of prototype indices assigned to class `c`. -/
def classPrototypeIndices (identity : List (List ℚ)) (c : Nat) : List Nat :=
  (List.range identity.length).filter (hasClassEntry identity c)

/-- Line 153: the activations of the class-`c` prototypes, in index order. -/
def classActs (acts : List ℚ) (identity : List (List ℚ)) (c : Nat) : List ℚ :=
  (classPrototypeIndices identity c).map (actAt acts)

/-- Element `j` of a nonzero-index list (`class_prototype_indices[j]`). -/
def idxAt (l : List Nat) (j : Nat) : Nat := l.getD j 0

/-- Lines 154-160: ascending sort of the class activations, reversed, and
each position mapped back through `class_prototype_indices` — the order in
which the per-class loop visits prototype indices. -/
def selectClassPrototypes (acts : List ℚ) (identity : List (List ℚ)) (c : Nat) : List Nat :=
  ((argsortAsc (classActs acts identity c)).reverse).map
    (idxAt (classPrototypeIndices identity c))

/-- Lines 155-206: `prototype_cnt` starts at 1 for every class and increments
once per visited prototype, pairing each visited index with its rank. -/
def rankedClassPrototypes (acts : List ℚ) (identity : List (List ℚ)) (c : Nat) :
    List (Nat × Nat) :=
  (List.range' 1 (selectClassPrototypes acts identity c).length).zip
    (selectClassPrototypes acts identity c)

/-- Line 148: `torch.topk(logits[idx], k=k)` class indices, descending by
logit. -/
def topkClasses (logits : List ℚ) (k : Nat) : List Nat :=
  ((argsortAsc logits).reverse).take k

/-! ### Activation offset for the linear mode (lines 40-42, 78-82) -/

/-- `ppnet.prototype_shape`, a 4-tuple of dimensions. -/
structure PrototypeShape where
  d0 : Nat
  d1 : Nat
  d2 : Nat
  d3 : Nat

/-- Line 42: `max_dist = prototype_shape[1] * prototype_shape[2] *
prototype_shape[3]`. -/
def maxDist (s : PrototypeShape) : Nat := s.d1 * s.d2 * s.d3

/-- Add a fixed offset to one scalar. -/
def addOffset (m x : ℚ) : ℚ := x + m

/-- Elementwise offset over one spatial row. -/
def addOffsetRow (m : ℚ) (row : List ℚ) : List ℚ := row.map (addOffset m)

/-- Elementwise offset over one prototype's 2-D spatial activation map. -/
def addOffsetGrid (m : ℚ) (g : List (List ℚ)) : List (List ℚ) :=
  g.map (addOffsetRow m)

/-- Lines 80-81: the per-prototype minimum-distance activations get the
`max_dist` offset exactly when the activation function is `'linear'`. -/
def adjustActivations (mode : String) (maxd : ℚ) (acts : List ℚ) : List ℚ :=
  if mode = "linear" then acts.map (addOffset maxd) else acts

/-- Lines 80 and 82: the dense spatial activation patterns (one 2-D map per
prototype) get the same offset exactly when the activation function is
`'linear'`. -/
def adjustPatterns (mode : String) (maxd : ℚ) (pats : List (List (List ℚ))) :
    List (List (List ℚ)) :=
  if mode = "linear" then pats.map (addOffsetGrid maxd) else pats

/-- The per-prototype activations as `run_analysis` uses them from line 84
on: raw converted activations, offset in linear mode. -/
def analysisActivations (mode : String) (shape : PrototypeShape) (raw : List ℚ) : List ℚ :=
  adjustActivations mode ((maxDist shape : Nat) : ℚ) raw

/-- The spatial activation patterns as `run_analysis` uses them from line 84
on. -/
def analysisPatterns (mode : String) (shape : PrototypeShape)
    (raw : List (List (List ℚ))) : List (List (List ℚ)) :=
  adjustPatterns mode ((maxDist shape : Nat) : ℚ) raw

/-- Line 96: the global ranking is computed on the (possibly offset)
activations. -/
def analysisTopN (mode : String) (shape : PrototypeShape) (raw : List ℚ) (n : Nat) :
    List Nat :=
  topNSelect (analysisActivations mode shape raw) n

/-! ### Distance-to-activation conversion (line 78-79)

`ppnet.distance_2_similarity` lives in the model class, which is not part of
this module. -/

/-- Modelled from the spec: the numerical-stability constant of the model's
inverted-log activation (`epsilon`, 1e-4 in the training stage). -/
def epsilonPP : ℚ := 1 / 10000

/-- Modelled from the spec: the model's `distance_2_similarity` in the
inverted-log mode — "Activation/similarity is a monotonic transform of
distance (either inverted-log or additively-shifted linear form)" — i.e.
`log((d + 1) / (d + epsilon))`. -/
noncomputable def logActivation (d : ℚ) : ℝ :=
  Real.log (((d : ℝ) + 1) / ((d : ℝ) + (epsilonPP : ℝ)))

/-- Modelled from the spec: the model's `distance_2_similarity` in the linear
mode is `-d`; lines 80-81 then add the `max_dist` shift, giving the
"additively-shifted linear form" `max_dist - d`. -/
def linearActivation (maxd d : ℚ) : ℚ := -d + maxd

/-! ### Name resolution in the most-activated-prototypes loop (lines 1-14,
97-142, 144-206) -/

/-- The module-level names bound by the imports of lines 1-14 plus the
module's own `def` (line 16). -/
def moduleBindings : List String :=
  ["os", "re", "Namespace", "np", "torch", "Variable", "transforms", "datasets",
   "Image", "makedir", "create_logger", "mean", "std", "save_preprocessed_img",
   "run_analysis"]

/-- The Python builtins the function body uses. -/
def pyBuiltins : List String :=
  ["range", "len", "int", "str", "set", "open", "list", "reversed", "enumerate",
   "print", "format"]

/-- The global names the most-activated-prototypes loop (lines 97-142) uses
beyond builtins and locals. -/
def topLoopNames : List String :=
  ["tqdm", "save_prototype", "save_prototype_original_img_with_bbox",
   "save_prototype_self_activation", "cv2", "plt", "find_high_activation_crop",
   "imsave_with_bbox"]

/-- Whether a global name resolves in the module (module binding or
builtin). -/
def nameBound (n : String) : Bool :=
  moduleBindings.contains n || pyBuiltins.contains n

/-- The files one iteration of the top-prototypes loop writes when every
helper name resolves (lines 100-142). -/
def topIterFiles : List String :=
  ["prototype_patch.png", "prototype_bbox.png", "prototype_activation.png",
   "info.txt", "target_patch.png", "target_bbox.png", "target_activations.png"]

/-- One iteration of the loop body (lines 98-142).  The first file-producing
call of an iteration is `save_prototype` itself, so when the helper names do
not resolve the iteration raises `NameError` before writing any file. -/
def runTopIter (i : Nat) : List String × Option PyError :=
  if topLoopNames.all nameBound then
    (topIterFiles.map
      (fun f => "most_activated_prototypes/top-" ++ toString i ++ "/" ++ f), none)
  else ([], some PyError.nameError)

/-- Run the loop iterations in order, stopping at the first exception and
accumulating written files. -/
def goIters : List Nat → List String × Option PyError
  | [] => ([], none)
  | i :: rest =>
    match runTopIter i with
    | (arts, some e) => (arts, some e)
    | (arts, none) =>
      match goIters rest with
      | (arts2, e2) => (arts ++ arts2, e2)

/-- Lines 97-142: `for i in tqdm(range(1, args.top_prototypes + 1), ...)`.
The loop header evaluates the name `tqdm` before the first iteration; an
unbound `tqdm` raises `NameError` with nothing written. -/
def runTopLoop (topPrototypes : Nat) : List String × Option PyError :=
  if nameBound "tqdm" then goIters (List.range' 1 topPrototypes)
  else ([], some PyError.nameError)

/-- Lines 149-206: the per-class loop also wraps its iteration in `tqdm`
(line 157) and uses the same unbound helper names. -/
def runClassLoop : List String × Option PyError :=
  if nameBound "tqdm" then ([], none)
  else ([], some PyError.nameError)

/-- Lines 97-206 in program order: the top-prototypes loop runs first; only
if it finishes does the `assert k < len(dataset.classes)` of line 146 run;
only then the per-class loop.  Returns the files written and the exception
(if any) that ended the run. -/
def runModule (topPrototypes k numClasses : Nat) : List String × Option PyError :=
  match runTopLoop topPrototypes with
  | (arts, some e) => (arts, some e)
  | (arts, none) =>
    if k < numClasses then
      match runClassLoop with
      | (arts2, e2) => (arts ++ arts2, e2)
    else (arts, some PyError.assertionError)

/-! ## Lemmas about the stable argsort -/

theorem argsortAsc_perm (xs : List ℚ) :
    List.Perm (argsortAsc xs) (List.range xs.length) :=
  List.perm_insertionSort _ _

theorem argsortAsc_sorted (xs : List ℚ) :
    List.Sorted (sortLE xs) (argsortAsc xs) :=
  List.sorted_insertionSort _ _

theorem argsortAsc_length (xs : List ℚ) : (argsortAsc xs).length = xs.length := by
  simpa using (argsortAsc_perm xs).length_eq

theorem mem_argsortAsc {xs : List ℚ} {i : Nat} (h : i ∈ argsortAsc xs) :
    i < xs.length :=
  List.mem_range.mp ((argsortAsc_perm xs).mem_iff.mp h)

theorem argsortAsc_nodup (xs : List ℚ) : (argsortAsc xs).Nodup :=
  (argsortAsc_perm xs).symm.nodup (List.nodup_range _)

theorem argsortAsc_reverse_pairwise (xs : List ℚ) :
    ((argsortAsc xs).reverse).Pairwise (fun i j => sortLE xs j i) := by
  rw [List.pairwise_reverse]
  exact argsortAsc_sorted xs

theorem descTie_of (xs : List ℚ) {i j : Nat} (h : sortLE xs j i ∧ i ≠ j) :
    descTie xs i j := by
  rcases h with ⟨hle, hne⟩
  rcases hle with hlt | ⟨heq, hji⟩
  · exact Or.inl hlt
  · exact Or.inr ⟨heq.symm, lt_of_le_of_ne hji hne.symm⟩

/-- C2 (amended): for every activation vector and every `N` with
`1 ≤ N ≤ num_prototypes`, the global top-N selection (ascending stable sort,
then indexing from the end for ranks `1..N`) yields exactly `N` distinct
prototype indices inside `[0, num_prototypes)`, ordered by descending
activation value — with ties broken by reverse original order, since indexing
a stable ascending sort from the end reverses the order of equal values. -/
theorem topNSelect_global (xs : List ℚ) (n : Nat) (h1 : 1 ≤ n) (h2 : n ≤ xs.length) :
    (topNSelect xs n).length = n ∧ (topNSelect xs n).Nodup ∧
    topNSelect xs n ⊆ List.range xs.length ∧
    (topNSelect xs n).Pairwise (descTie xs) := by
  have hrevnd : ((argsortAsc xs).reverse).Nodup := by
    simpa [List.nodup_reverse] using argsortAsc_nodup xs
  have hsub : List.Sublist (topNSelect xs n) ((argsortAsc xs).reverse) :=
    List.take_sublist _ _
  refine ⟨?_, ?_, ?_, ?_⟩
  · simp [topNSelect, List.length_take, argsortAsc_length, Nat.min_eq_left h2]
  · exact List.Nodup.sublist hsub hrevnd
  · intro i hi
    have hm : i ∈ (argsortAsc xs).reverse := hsub.subset hi
    exact List.mem_range.mpr (mem_argsortAsc (List.mem_reverse.mp hm))
  · exact ((argsortAsc_reverse_pairwise xs).and hrevnd).imp
      (fun h => descTie_of xs h) |>.sublist hsub

theorem topNSelect_global_witness :
    1 ≤ 2 ∧ (2 : Nat) ≤ [(1 : ℚ), 2].length ∧
    ((topNSelect [1, 2] 2).length = 2 ∧ (topNSelect [1, 2] 2).Nodup ∧
      topNSelect [1, 2] 2 ⊆ List.range [(1 : ℚ), 2].length ∧
      (topNSelect [1, 2] 2).Pairwise (descTie [1, 2])) :=
  ⟨by decide, by decide, topNSelect_global [1, 2] 2 (by decide) (by decide)⟩

/-- C2 counterexample: on the activation vector `[5, 5]` (a tie) with `N = 2`,
the code's selection is `[1, 0]` while a descending ranking with ties in
stable original order would be `[0, 1]`; so ties are not broken by stable
original (insertion) order. -/
theorem topNSelect_tie_counterexample :
    topNSelect [5, 5] 2 = [1, 0] ∧ specTopN [5, 5] 2 = [0, 1] ∧
    topNSelect [5, 5] 2 ≠ specTopN [5, 5] 2 := by decide

/-! ## Lemmas about the per-class selection -/

theorem map_idxAt_range (l : List Nat) : (List.range l.length).map (idxAt l) = l := by
  induction l with
  | nil => rfl
  | cons a tl ih =>
    rw [List.length_cons, List.range_succ_eq_map, List.map_cons, List.map_map]
    have hcomp : idxAt (a :: tl) ∘ Nat.succ = idxAt tl := rfl
    rw [hcomp, ih]
    rfl

theorem getD_map_actAt (acts : List ℚ) (idxs : List Nat) {j : Nat}
    (h : j < idxs.length) :
    (idxs.map (actAt acts)).getD j 0 = actAt acts (idxAt idxs j) := by
  have h2 : j < (idxs.map (actAt acts)).length := by simpa using h
  rw [List.getD_eq_getElem _ _ h2, List.getElem_map, idxAt,
    List.getD_eq_getElem _ _ h]

theorem select_perm (acts : List ℚ) (idxs : List Nat) :
    List.Perm (((argsortAsc (idxs.map (actAt acts))).reverse).map (idxAt idxs)) idxs := by
  have hperm := (List.reverse_perm (argsortAsc (idxs.map (actAt acts)))).trans
    (argsortAsc_perm (idxs.map (actAt acts)))
  rw [List.length_map] at hperm
  have h2 := hperm.map (idxAt idxs)
  rwa [map_idxAt_range idxs] at h2

theorem select_pairwise (acts : List ℚ) (idxs : List Nat) :
    (((argsortAsc (idxs.map (actAt acts))).reverse).map (idxAt idxs)).Pairwise
      (actGE acts) := by
  have hmem : ∀ j ∈ (argsortAsc (idxs.map (actAt acts))).reverse, j < idxs.length := by
    intro j hj
    have hlt := mem_argsortAsc (List.mem_reverse.mp hj)
    rwa [List.length_map] at hlt
  have hp2 : ((argsortAsc (idxs.map (actAt acts))).reverse).Pairwise
      (fun j1 j2 => sortLE (idxs.map (actAt acts)) j2 j1 ∧
        j1 < idxs.length ∧ j2 < idxs.length) :=
    (argsortAsc_reverse_pairwise (idxs.map (actAt acts))).imp_of_mem
      (fun ha hb hab => ⟨hab, hmem _ ha, hmem _ hb⟩)
  rw [List.pairwise_map]
  refine hp2.imp ?_
  rintro a b ⟨hab, halen, hblen⟩
  have hga := getD_map_actAt acts idxs halen
  have hgb := getD_map_actAt acts idxs hblen
  rcases hab with hlt | ⟨heq, _⟩
  · exact le_of_lt (by rw [← hga, ← hgb]; exact hlt)
  · exact le_of_eq (by rw [← hga, ← hgb]; exact heq)

/-- C5: for each of the top-K predicted classes `c` (ranked by raw logit,
descending), the per-class selection returns only prototype indices whose
assigned-class indicator matches `c` (it visits a permutation of
`class_prototype_indices`, the nonzero entries of the indicator column),
ranks them by activation descending, the rank counter restarting at 1 for
each class, and it covers exactly the full subset without overflowing past
it. -/
theorem class_selection (acts : List ℚ) (identity : List (List ℚ)) (logits : List ℚ)
    (k c : Nat) (hc : c ∈ topkClasses logits k) :
    selectClassPrototypes acts identity c ⊆ classPrototypeIndices identity c ∧
    List.Perm (selectClassPrototypes acts identity c)
      (classPrototypeIndices identity c) ∧
    (selectClassPrototypes acts identity c).Pairwise (actGE acts) ∧
    (rankedClassPrototypes acts identity c).map Prod.fst =
      List.range' 1 (selectClassPrototypes acts identity c).length := by
  have hperm : List.Perm (selectClassPrototypes acts identity c)
      (classPrototypeIndices identity c) :=
    select_perm acts (classPrototypeIndices identity c)
  refine ⟨hperm.subset, hperm, select_pairwise acts (classPrototypeIndices identity c), ?_⟩
  exact List.map_fst_zip _ _ (by rw [List.length_range'])

theorem class_selection_witness :
    (1 ∈ topkClasses [1, 2] 1) ∧
    (selectClassPrototypes [3, 4] [[0, 1], [0, 0]] 1 ⊆
       classPrototypeIndices [[0, 1], [0, 0]] 1 ∧
     List.Perm (selectClassPrototypes [3, 4] [[0, 1], [0, 0]] 1)
       (classPrototypeIndices [[0, 1], [0, 0]] 1) ∧
     (selectClassPrototypes [3, 4] [[0, 1], [0, 0]] 1).Pairwise (actGE [3, 4]) ∧
     (rankedClassPrototypes [3, 4] [[0, 1], [0, 0]] 1).map Prod.fst =
       List.range' 1 (selectClassPrototypes [3, 4] [[0, 1], [0, 0]] 1).length) :=
  ⟨by decide, class_selection [3, 4] [[0, 1], [0, 0]] [1, 2] 1 1 (by decide)⟩

/-! ## Lemmas about the alignment sanity check -/

theorem countP_pairEq_zip {a b : List ℤ} (h : a.length = b.length) :
    ((a.zip b).countP pairEq = a.length) ↔ a = b := by
  induction a generalizing b with
  | nil =>
    cases b with
    | nil => simp
    | cons y ys => simp at h
  | cons x xs ih =>
    cases b with
    | nil => simp at h
    | cons y ys =>
      have h' : xs.length = ys.length := by simpa using h
      rw [List.zip_cons_cons, List.countP_cons]
      by_cases hxy : x = y
      · subst hxy
        have hpe : pairEq (x, x) = true := by simp [pairEq]
        rw [hpe]
        simp only [if_true, List.length_cons, List.cons.injEq, true_and,
          Nat.add_right_cancel_iff]
        exact ih h'
      · have hpe : pairEq (x, y) = false := by simp [pairEq, hxy]
        have hle : (xs.zip ys).countP pairEq ≤ xs.length := by
          have h0 : (xs.zip ys).countP pairEq ≤ (xs.zip ys).length :=
            List.countP_le_length _
          rw [List.length_zip] at h0
          exact h0.trans (Nat.min_le_left _ _)
        constructor
        · intro hc
          exfalso
          simp only [hpe, Bool.false_eq_true, if_false, Nat.add_zero,
            List.length_cons] at hc
          omega
        · intro hEq
          injection hEq with hx _
          exact absurd hx hxy

/-- C3: the prototype-class alignment check logs the "all aligned" message
exactly when the per-prototype arg-max over the final-layer weight columns
equals the metadata-assigned class for every prototype (the equality count
equals the model's prototype count), logs the warning message exactly when
at least one prototype mismatches, and — the metadata record count matching
the prototype count — always returns one of the two messages and never
aborts. -/
theorem alignment_check (info : List (List ℤ)) (weight : List (List ℚ)) (n : Nat)
    (hlen : info.length = n) :
    (sanityCheck true info weight n = Except.ok AlignMsg.allAligned ↔
      (prototypeMaxConnection weight n).map natToInt = identityCol info) ∧
    (sanityCheck true info weight n = Except.ok AlignMsg.warning ↔
      ((prototypeMaxConnection weight n).map natToInt = identityCol info → False)) ∧
    isError (sanityCheck true info weight n) = false := by
  have hclen : ((prototypeMaxConnection weight n).map natToInt).length = n := by
    simp [prototypeMaxConnection]
  have hilen : (identityCol info).length = n := by simp [identityCol, hlen]
  have hnp : npEqCountSum ((prototypeMaxConnection weight n).map natToInt)
      (identityCol info) = Except.ok
      ((((prototypeMaxConnection weight n).map natToInt).zip
        (identityCol info)).countP pairEq) := by
    rw [npEqCountSum, if_pos (by rw [hclen, hilen])]
  have hiff := countP_pairEq_zip (a := (prototypeMaxConnection weight n).map natToInt)
    (b := identityCol info) (by rw [hclen, hilen])
  rw [hclen] at hiff
  by_cases hEq : (prototypeMaxConnection weight n).map natToInt = identityCol info
  · have hcnt : (((prototypeMaxConnection weight n).map natToInt).zip
        (identityCol info)).countP pairEq = n := hiff.mpr hEq
    have hres : sanityCheck true info weight n = Except.ok AlignMsg.allAligned := by
      simp [sanityCheck, hnp, hcnt]
    refine ⟨?_, ?_, ?_⟩
    · simp [hres, hEq]
    · simp [hres, hEq]
    · simp [hres, isError]
  · have hcnt : (((prototypeMaxConnection weight n).map natToInt).zip
        (identityCol info)).countP pairEq ≠ n := fun hc => hEq (hiff.mp hc)
    have hres : sanityCheck true info weight n = Except.ok AlignMsg.warning := by
      simp [sanityCheck, hnp, hcnt]
    refine ⟨?_, ?_, ?_⟩
    · simp [hres, hEq]
    · simp [hres, hEq]
    · simp [hres, isError]

theorem alignment_check_witness :
    ([[(0 : ℤ), 0, 0, 0, 0, 0]] : List (List ℤ)).length = 1 ∧
    ((sanityCheck true [[0, 0, 0, 0, 0, 0]] [[1]] 1 = Except.ok AlignMsg.allAligned ↔
       (prototypeMaxConnection [[1]] 1).map natToInt = identityCol [[0, 0, 0, 0, 0, 0]]) ∧
     (sanityCheck true [[0, 0, 0, 0, 0, 0]] [[1]] 1 = Except.ok AlignMsg.warning ↔
       ((prototypeMaxConnection [[1]] 1).map natToInt = identityCol [[0, 0, 0, 0, 0, 0]] →
         False)) ∧
     isError (sanityCheck true [[0, 0, 0, 0, 0, 0]] [[1]] 1) = false) :=
  ⟨rfl, alignment_check [[0, 0, 0, 0, 0, 0]] [[1]] 1 rfl⟩

/-- C1 (amended): a mismatched prototype metadata count is not guarded by any
assertion: when the record count differs from the model's prototype count
(neither count being 1, so numpy broadcasting cannot apply), the run halts at
the alignment-check comparison with a generic broadcast `ValueError` — not an
assertion-style failure — before producing any per-prototype artifact; the
assertion-style hard stops of `run_analysis` are the missing
prototype-image-directory check and the top-classes-count bound. -/
theorem count_mismatch_value_error (info : List (List ℤ)) (weight : List (List ℚ))
    (n : Nat) (h1 : info.length ≠ n) (h2 : info.length ≠ 1) (h3 : n ≠ 1) :
    sanityCheck true info weight n = Except.error PyError.valueError ∧
    sanityCheck false info weight n = Except.error PyError.assertionError := by
  constructor
  · have hclen : ((prototypeMaxConnection weight n).map natToInt).length = n := by
      simp [prototypeMaxConnection]
    have hilen : (identityCol info).length = info.length := by simp [identityCol]
    have hnp : npEqCountSum ((prototypeMaxConnection weight n).map natToInt)
        (identityCol info) = Except.error PyError.valueError := by
      rw [npEqCountSum, if_neg (by rw [hclen, hilen]; exact fun e => h1 e.symm),
        if_neg (by rw [hclen]; exact h3), if_neg (by rw [hilen]; exact h2)]
    simp [sanityCheck, hnp]
  · rfl

theorem count_mismatch_witness :
    ([[(0 : ℤ), 0, 0, 0, 0, 0], [0, 0, 0, 0, 0, 0], [0, 0, 0, 0, 0, 0]] :
       List (List ℤ)).length ≠ 2 ∧
    ([[(0 : ℤ), 0, 0, 0, 0, 0], [0, 0, 0, 0, 0, 0], [0, 0, 0, 0, 0, 0]] :
       List (List ℤ)).length ≠ 1 ∧ (2 : Nat) ≠ 1 ∧
    (sanityCheck true [[0, 0, 0, 0, 0, 0], [0, 0, 0, 0, 0, 0], [0, 0, 0, 0, 0, 0]]
        [[1, 1]] 2 = Except.error PyError.valueError ∧
      sanityCheck false [[0, 0, 0, 0, 0, 0], [0, 0, 0, 0, 0, 0], [0, 0, 0, 0, 0, 0]]
        [[1, 1]] 2 = Except.error PyError.assertionError) :=
  ⟨by decide, by decide, by decide,
    count_mismatch_value_error _ [[1, 1]] 2 (by decide) (by decide) (by decide)⟩

/-- C1 counterexample: with three metadata records and a declared prototype
count of two, the sanity-check section halts with `ValueError` (numpy cannot
broadcast the elementwise comparison), not with an assertion-style failure —
so a mismatched prototype count is not an assertion-style hard stop. -/
theorem count_mismatch_counterexample :
    sanityCheck true [[0, 0, 0, 0, 0, 0], [0, 0, 0, 0, 0, 0], [0, 0, 0, 0, 0, 0]]
      [[1, 1]] 2 = Except.error PyError.valueError ∧
    PyError.valueError ≠ PyError.assertionError := by decide

/-! ## Lemmas about the epoch-number extraction -/

theorem takeWhile_append_of_all (l1 l2 : List Char) (h : ∀ c ∈ l1, c.isDigit = true) :
    (l1 ++ l2).takeWhile Char.isDigit = l1 ++ l2.takeWhile Char.isDigit := by
  induction l1 with
  | nil => rfl
  | cons c l1' ih =>
    have hc := h c (by simp)
    simp only [List.cons_append, List.takeWhile_cons, hc, if_true]
    rw [ih (fun x hx => h x (by simp [hx]))]

theorem firstDigitRun_decomp (a ds b : List Char)
    (ha : ∀ c ∈ a, c.isDigit = false) (hds : ds ≠ [])
    (hd : ∀ c ∈ ds, c.isDigit = true) (hb : b.takeWhile Char.isDigit = []) :
    firstDigitRun (a ++ (ds ++ b)) = some ds := by
  induction a with
  | nil =>
    cases ds with
    | nil => exact absurd rfl hds
    | cons d ds' =>
      have hdd : d.isDigit = true := hd d (by simp)
      have hds' : ∀ c ∈ ds', c.isDigit = true := fun c hc => hd c (by simp [hc])
      simp only [List.nil_append, List.cons_append, firstDigitRun, hdd, if_true]
      show some (d :: (ds' ++ b).takeWhile Char.isDigit) = some (d :: ds')
      rw [takeWhile_append_of_all ds' b hds', hb, List.append_nil]
  | cons c a' ih =>
    have hcd : c.isDigit = false := ha c (by simp)
    have ha' : ∀ x ∈ a', x.isDigit = false := fun x hx => ha x (by simp [hx])
    simp only [List.cons_append, firstDigitRun, hcd, Bool.false_eq_true, if_false]
    exact ih ha'

theorem digitsToNat_aux (ds : List Char) (acc : Nat) :
    ds.foldl (fun a c => 10 * a + digitVal c) acc =
      acc * 10 ^ ds.length + Nat.ofDigits 10 ((ds.map digitVal).reverse) := by
  induction ds generalizing acc with
  | nil => simp [Nat.ofDigits]
  | cons d ds ih =>
    rw [List.foldl_cons, ih]
    rw [List.map_cons, List.reverse_cons, Nat.ofDigits_append, Nat.ofDigits_singleton]
    simp only [List.length_reverse, List.length_map, List.length_cons, pow_succ]
    ring

theorem digitsToNat_eq (ds : List Char) :
    digitsToNat ds = Nat.ofDigits 10 ((ds.map digitVal).reverse) := by
  have h := digitsToNat_aux ds 0
  simpa [digitsToNat] using h

/-- C6: for every checkpoint filename of the shape
`(no digits) ++ (digit run) ++ (rest not starting with a digit)` the epoch
number extracted by the path parser is the first digit run interpreted as a
base-10 integer (so in particular, for a filename with exactly one digit run,
that run); e.g. `10_18push0.7822.pth` yields `10`. -/
theorem epoch_extraction (a ds b : List Char)
    (ha : a.filter Char.isDigit = []) (hds : ds ≠ [])
    (hd : ds.filter nonDigit = []) (hb : b.takeWhile Char.isDigit = []) :
    extractEpochC (a ++ (ds ++ b)) =
      Except.ok (Nat.ofDigits 10 ((ds.map digitVal).reverse)) ∧
    extractEpochC "10_18push0.7822.pth".toList = Except.ok 10 := by
  have ha' : ∀ c ∈ a, c.isDigit = false := by
    intro c hc
    have h0 := List.filter_eq_nil_iff.mp ha c hc
    simpa using h0
  have hd' : ∀ c ∈ ds, c.isDigit = true := by
    intro c hc
    have h0 := List.filter_eq_nil_iff.mp hd c hc
    simpa [nonDigit] using h0
  have hfdr := firstDigitRun_decomp a ds b ha' hds hd' hb
  constructor
  · simp [extractEpochC, hfdr, digitsToNat_eq]
  · decide

theorem epoch_extraction_witness :
    (['x'] : List Char).filter Char.isDigit = [] ∧ (['1', '0'] : List Char) ≠ [] ∧
    (['1', '0'] : List Char).filter nonDigit = [] ∧
    (['_'] : List Char).takeWhile Char.isDigit = [] ∧
    (extractEpochC (['x'] ++ (['1', '0'] ++ ['_'])) =
       Except.ok (Nat.ofDigits 10 (((['1', '0'] : List Char).map digitVal).reverse)) ∧
     extractEpochC "10_18push0.7822.pth".toList = Except.ok 10) :=
  ⟨by decide, by decide, by decide, by decide,
    epoch_extraction ['x'] ['1', '0'] ['_'] (by decide) (by decide) (by decide)
      (by decide)⟩

/-! ## Lemmas about parser failure -/

theorem unpack2_error {l : List (List Char)} (h : l.length ≠ 2) :
    unpack2 l = Except.error PyError.valueError := by
  rcases l with _ | ⟨a, l⟩
  · rfl
  rcases l with _ | ⟨b, l⟩
  · rfl
  rcases l with _ | ⟨c, l⟩
  · exact absurd rfl h
  · rfl

theorem unpack4_error {l : List (List Char)} (h : l.length ≠ 4) :
    unpack4 l = Except.error PyError.valueError := by
  rcases l with _ | ⟨a, l⟩
  · rfl
  rcases l with _ | ⟨b, l⟩
  · rfl
  rcases l with _ | ⟨c, l⟩
  · rfl
  rcases l with _ | ⟨d, l⟩
  · rfl
  rcases l with _ | ⟨e, l⟩
  · exact absurd rfl h
  · rfl

theorem unpack4_ok {l : List (List Char)}
    {q : List Char × List Char × List Char × List Char}
    (h : unpack4 l = Except.ok q) : l = [q.1, q.2.1, q.2.2.1, q.2.2.2] := by
  rcases l with _ | ⟨a, l⟩
  · exact absurd h (by simp [unpack4])
  rcases l with _ | ⟨b, l⟩
  · exact absurd h (by simp [unpack4])
  rcases l with _ | ⟨c, l⟩
  · exact absurd h (by simp [unpack4])
  rcases l with _ | ⟨d, l⟩
  · exact absurd h (by simp [unpack4])
  rcases l with _ | ⟨e, l⟩
  · have hq := Except.ok.inj h
    rw [← hq]
  · exact absurd h (by simp [unpack4])

theorem lastN_length {α : Type} (n : Nat) (l : List α) :
    (lastN n l).length = min n l.length := by
  simp only [lastN, List.length_drop]
  omega

theorem lastN_getLast {α : Type} (l : List α) {a b c d : α}
    (h : lastN 4 l = [a, b, c, d]) : l.getLast? = some d := by
  have h4 : min 4 l.length = 4 := by
    have hc := congrArg List.length h
    rw [lastN_length] at hc
    simpa using hc
  have hlen4 : 4 ≤ l.length := h4 ▸ Nat.min_le_right 4 l.length
  have hdrop : (l.drop (l.length - 4)).getLast? = l.getLast? := by
    rw [List.getLast?_drop, if_neg (by omega)]
  rw [lastN] at h
  rw [h] at hdrop
  simpa using hdrop.symm

/-- C7: if the supplied image path has fewer than two separator-delimited
segments, or the checkpoint path has fewer than four, or the checkpoint
filename contains no digit run at all, the path/metadata parser ends in an
unhandled exception (a generic runtime failure) instead of returning a
result. -/
theorem parser_failure (img model : String)
    (h : (pySegments img).length < 2 ∨ (pySegments model).length < 4 ∨
      firstDigitRun (checkpointFilename model) = none) :
    isError (parsePaths img model) = true := by
  cases him : parseImgPath img with
  | error e => simp [parsePaths, him, isError]
  | ok im =>
    have himg2 : ¬ (pySegments img).length < 2 := by
      intro hlt
      have hne : (lastN 2 (pySegments img)).length ≠ 2 := by
        rw [lastN_length]; omega
      rw [parseImgPath, unpack2_error hne] at him
      exact Except.noConfusion him
    rcases h with h1 | h2 | h3
    · exact absurd h1 himg2
    · have hne : (lastN 4 (pySegments model)).length ≠ 4 := by
        rw [lastN_length]; omega
      simp [parsePaths, him, parseModelPath, unpack4_error hne, isError]
    · cases hup : unpack4 (lastN 4 (pySegments model)) with
      | error e => simp [parsePaths, him, parseModelPath, hup, isError]
      | ok q =>
        obtain ⟨arch, er, chk, name⟩ := q
        have hl := unpack4_ok hup
        have hlast : (pySegments model).getLast? = some name :=
          lastN_getLast _ hl
        have hname : checkpointFilename model = name := by
          rw [checkpointFilename, hlast]
          rfl
        rw [hname] at h3
        have hee : extractEpochC name = Except.error PyError.attributeError := by
          simp [extractEpochC, h3]
        simp [parsePaths, him, parseModelPath, hup, hee, isError]

theorem parser_failure_witness :
    ((pySegments "noseparators").length < 2 ∨
      (pySegments "m").length < 4 ∨
      firstDigitRun (checkpointFilename "m") = none) ∧
    isError (parsePaths "noseparators" "m") = true :=
  ⟨Or.inl (by decide), parser_failure "noseparators" "m" (Or.inl (by decide))⟩

/-! ## The linear-mode activation offset -/

/-- C4: when the model's configured activation function is the linear mode,
`run_analysis` adds the maximum possible distance — the product of the
prototype tensor shape's dimensions 1, 2 and 3 (the prototype volume) — as
an offset to both the per-prototype minimum-distance activations and the
dense spatial activation patterns, before the ranking uses them; in any
other mode no offset is added. -/
theorem linear_mode_offset (mode : String) (shape : PrototypeShape) (raw : List ℚ)
    (pats : List (List (List ℚ))) (n : Nat) (hmode : mode ≠ "linear") :
    analysisActivations "linear" shape raw = raw.map (addOffset (maxDist shape : ℚ)) ∧
    analysisPatterns "linear" shape pats =
      pats.map (addOffsetGrid (maxDist shape : ℚ)) ∧
    analysisActivations mode shape raw = raw ∧
    analysisPatterns mode shape pats = pats ∧
    maxDist shape = shape.d1 * shape.d2 * shape.d3 ∧
    analysisTopN "linear" shape raw n =
      topNSelect (raw.map (addOffset (maxDist shape : ℚ))) n ∧
    analysisTopN mode shape raw n = topNSelect raw n := by
  refine ⟨?_, ?_, ?_, ?_, rfl, ?_, ?_⟩
  · simp [analysisActivations, adjustActivations]
  · simp [analysisPatterns, adjustPatterns]
  · simp [analysisActivations, adjustActivations, hmode]
  · simp [analysisPatterns, adjustPatterns, hmode]
  · simp [analysisTopN, analysisActivations, adjustActivations]
  · simp [analysisTopN, analysisActivations, adjustActivations, hmode]

theorem linear_mode_offset_witness :
    ("log" : String) ≠ "linear" ∧
    (analysisActivations "linear" ⟨1, 2, 3, 4⟩ [1] =
       [(1 : ℚ)].map (addOffset (maxDist ⟨1, 2, 3, 4⟩ : ℚ)) ∧
     analysisPatterns "linear" ⟨1, 2, 3, 4⟩ [[[2]]] =
       [[[(2 : ℚ)]]].map (addOffsetGrid (maxDist ⟨1, 2, 3, 4⟩ : ℚ)) ∧
     analysisActivations "log" ⟨1, 2, 3, 4⟩ [1] = [(1 : ℚ)] ∧
     analysisPatterns "log" ⟨1, 2, 3, 4⟩ [[[2]]] = [[[(2 : ℚ)]]] ∧
     maxDist ⟨1, 2, 3, 4⟩ = 2 * 3 * 4 ∧
     analysisTopN "linear" ⟨1, 2, 3, 4⟩ [1] 1 =
       topNSelect ([(1 : ℚ)].map (addOffset (maxDist ⟨1, 2, 3, 4⟩ : ℚ))) 1 ∧
     analysisTopN "log" ⟨1, 2, 3, 4⟩ [1] 1 = topNSelect [(1 : ℚ)] 1) :=
  ⟨by decide, linear_mode_offset "log" ⟨1, 2, 3, 4⟩ [1] [[[2]]] 1 (by decide)⟩

/-! ## Monotonicity of the distance-to-activation conversion -/

/-- C8: for both supported activation modes — the inverted-log form and the
additively-shifted linear form — the distance-to-activation conversion
applied by `run_analysis` is strictly monotonically decreasing in the
distance: a smaller (nonnegative) distance yields a strictly greater
activation. -/
theorem activation_monotone (d1 d2 maxd : ℚ) (h0 : 0 ≤ d1) (h : d1 < d2) :
    logActivation d2 < logActivation d1 ∧
    linearActivation maxd d2 < linearActivation maxd d1 := by
  constructor
  · have hR : (d1 : ℝ) < (d2 : ℝ) := by exact_mod_cast h
    have h0R : (0 : ℝ) ≤ (d1 : ℝ) := by exact_mod_cast h0
    have heps : ((epsilonPP : ℚ) : ℝ) = 1 / 10000 := by norm_num [epsilonPP]
    have hd1 : (0 : ℝ) < (d1 : ℝ) + ((epsilonPP : ℚ) : ℝ) := by rw [heps]; linarith
    have hd2 : (0 : ℝ) < (d2 : ℝ) + ((epsilonPP : ℚ) : ℝ) := by rw [heps]; linarith
    have hnum2 : (0 : ℝ) < (d2 : ℝ) + 1 := by linarith
    have hration : ((d2 : ℝ) + 1) / ((d2 : ℝ) + ((epsilonPP : ℚ) : ℝ)) <
        ((d1 : ℝ) + 1) / ((d1 : ℝ) + ((epsilonPP : ℚ) : ℝ)) := by
      rw [div_lt_div_iff₀ hd2 hd1, heps]
      nlinarith [hR, h0R]
    have hpos : (0 : ℝ) < ((d2 : ℝ) + 1) / ((d2 : ℝ) + ((epsilonPP : ℚ) : ℝ)) :=
      div_pos hnum2 hd2
    exact Real.log_lt_log hpos hration
  · simp only [linearActivation]
    linarith

theorem activation_monotone_witness :
    (0 : ℚ) ≤ 0 ∧ (0 : ℚ) < 1 ∧
    (logActivation 1 < logActivation 0 ∧
     linearActivation 7 1 < linearActivation 7 0) :=
  ⟨le_refl 0, by norm_num, activation_monotone 0 1 7 (le_refl 0) (by norm_num)⟩

/-! ## Unbound names in the rendering loops -/

/-- C9: the most-activated-prototypes loop uses global names (`tqdm`,
`save_prototype`, `save_prototype_original_img_with_bbox`,
`save_prototype_self_activation`, `cv2`, `plt`, `find_high_activation_crop`,
`imsave_with_bbox`) that are neither imported nor defined anywhere in the
module, so for every invocation with a top-prototypes count of at least 1
execution raises an unhandled `NameError` at the first loop entry, before
writing any per-prototype artifact. -/
theorem top_loop_name_error (n : Nat) (h : 1 ≤ n) :
    topLoopNames.filter nameBound = [] ∧
    runTopLoop n = ([], some PyError.nameError) := by
  refine ⟨by decide, ?_⟩
  have ht : nameBound "tqdm" = false := by decide
  simp [runTopLoop, ht]

theorem top_loop_name_error_witness :
    1 ≤ 1 ∧ (topLoopNames.filter nameBound = [] ∧
      runTopLoop 1 = ([], some PyError.nameError)) :=
  ⟨le_refl 1, top_loop_name_error 1 (le_refl 1)⟩

/-- C10: evaluation at the failing input `top_prototypes = 1`,
`top_classes = 5`, two dataset classes (so `k` is not less than the class
count): the module as written halts with `NameError` from the unbound names
of the preceding loop, not with `AssertionError`, and writes no top-N
artifact — the `assert k < len(dataset.classes)` of line 146 is never
reached. -/
theorem topk_assert_unreachable :
    runModule 1 5 2 = ([], some PyError.nameError) ∧
    some PyError.nameError ≠ some PyError.assertionError := by decide

end AlignmentAnalysis
